import Mathlib

/-!
Verification of the profile-normalization pipeline of the
`marketing-strategy-recommender-be` backend (Python source under `app/`).

The Python code is shallowly embedded: every function below is translated
from a named function of the source (file and symbol given in its doc
comment).  Python strings are modelled as Lean `String`/`List Char`;
Python dictionaries holding the business profile are modelled by the
record `Profile` whose fields are exactly the keys the pipeline reads or
writes; code that can raise returns `Except String`.
-/

/-! ## Python string primitives

Helpers mirroring the semantics of the CPython string operations used by
the source.  Case mapping is ASCII (`str.lower`/`str.upper`/`str.title`
agree with this on all inputs appearing in the source tables). -/

deriving instance DecidableEq for Except

/-- Model of the character class matched by the regex `\s` and stripped by
`str.strip` (ASCII range). -/
def pyIsSpace (c : Char) : Bool :=
  c = ' ' || c = '\t' || c = '\n' || c = '\r' || c = '\x0b' || c = '\x0c'

/-- Model of `str.lower` (ASCII case mapping). -/
def pyLower (s : String) : String := String.mk (s.data.map Char.toLower)

/-- Model of `str.upper` (ASCII case mapping). -/
def pyUpper (s : String) : String := String.mk (s.data.map Char.toUpper)

/-- Characters of `str.strip()` applied to a character list. -/
def stripL (l : List Char) : List Char :=
  ((l.dropWhile pyIsSpace).reverse.dropWhile pyIsSpace).reverse

/-- Model of `str.strip()`. -/
def pyStrip (s : String) : String := String.mk (stripL s.data)

/-- Substring test on character lists: model of the Python `in` operator
on strings (`needle in hay`). -/
def substrAux (n : List Char) : List Char → Bool
  | [] => n.isEmpty
  | c :: t => n.isPrefixOf (c :: t) || substrAux n t

/-- Model of `needle in hay` for Python strings. -/
def substrS (needle hay : String) : Bool := substrAux needle.data hay.data

/-- Title-casing scanner: a cased character is uppercased when the
previous character is not alphabetic, lowercased otherwise. -/
def titleAux : List Char → Bool → List Char
  | [], _ => []
  | c :: t, prev =>
    (if c.isAlpha then (if prev then c.toLower else c.toUpper) else c) ::
      titleAux t c.isAlpha

/-- Model of `str.title()` (ASCII). -/
def pyTitle (s : String) : String := String.mk (titleAux s.data false)

/-- Model of `str.replace(k, v)`: replace all non-overlapping occurrences
of `k`, scanning left to right.  The source only ever replaces non-empty
literals, so the empty pattern (where CPython would interleave `v`
everywhere) is a no-op here. -/
def replaceFuel (k v : List Char) : Nat → List Char → List Char
  | _, [] => []
  | 0, s => s
  | fuel + 1, c :: t =>
    if k ≠ [] ∧ k.isPrefixOf (c :: t) = true then
      v ++ replaceFuel k v fuel (List.drop k.length (c :: t))
    else
      c :: replaceFuel k v fuel t

/-- Entry point of the `str.replace` model: the fuel starts at the length
of the subject string and each step consumes at least one character, so
the fuel never runs out. -/
def replaceGo (k v s : List Char) : List Char := replaceFuel k v s.length s

/-- Model of `str.replace` on `String`. -/
def pyReplace (s k v : String) : String := String.mk (replaceGo k.data v.data s.data)

/-- Scanner for `re.sub(r'\s+', ' ', s)`: the flag records whether the
previous character was whitespace (so a run is emitted as one space). -/
def collapseGo : Bool → List Char → List Char
  | _, [] => []
  | prev, c :: t =>
    if pyIsSpace c then
      (if prev then collapseGo true t else ' ' :: collapseGo true t)
    else
      c :: collapseGo false t

/-- Model of `re.sub(r'\s+', ' ', s)`. -/
def collapseWs (s : String) : String := String.mk (collapseGo false s.data)

/-- Character class of the bullet-conversion regex in
`ProfileBuilderAgent._preprocess_input`.  The source file stores the
bullet glyph as the three bytes `C3 A2, E2 82 AC, C2 A2` (a mis-encoded
`U+2022`), so the class read by `re` is `{U+00E2, U+20AC, U+00A2, -, *}`. -/
def isBulletChar (c : Char) : Bool :=
  c = '\xe2' || c = '€' || c = '\xa2' || c = '-' || c = '*'

/-- Scanner for `re.sub(r'[<bullets>\-\*]\s*', '\n- ', s)`: a class
character is replaced by newline + dash + space and the following
whitespace run is swallowed (the `skipws` flag). -/
def bulletGo : Bool → List Char → List Char
  | _, [] => []
  | skipws, c :: t =>
    if skipws && pyIsSpace c then bulletGo true t
    else if isBulletChar c then '\n' :: '-' :: ' ' :: bulletGo true t
    else c :: bulletGo false t

/-- Model of the bullet-conversion substitution. -/
def bulletSub (s : String) : String := String.mk (bulletGo false s.data)

/-! ## Lexical normalizer -/

/-- Translation of `ProfileBuilderAgent.sinhala_mappings`
(`app/agents/profile_builder.py`), in dictionary insertion order. -/
def sinhala_mappings : List (String × String) := [
  ("awareness ekak oni", "brand awareness"),
  ("sales wadakaranna oni", "increase sales"),
  ("customers la gana", "customer acquisition"),
  ("reach eka wadakaranna", "increase reach"),
  ("online presence eka hadanna", "build online presence"),
  ("kade", "shop"),
  ("restaurant eka", "restaurant"),
  ("salon eka", "salon"),
  ("garage eka", "garage"),
  ("photos nane", "lack of content"),
  ("time nane", "no time"),
  ("followers nane", "low followers"),
  ("engagement nane", "low engagement"),
  ("budget nane", "limited budget"),
  ("hondama quality", "high quality"),
  ("loyal customers", "customer loyalty"),
  ("good location", "strategic location"),
  ("fb", "Facebook"),
  ("ig", "Instagram"),
  ("whatsapp", "WhatsApp"),
  ("tiktok", "TikTok")]

/-- Phrase-substitution loop of `_preprocess_input`: each mapping key is
lowercased and replaced by its (unmodified) value, in table order. -/
def applyMappings (s : String) : String :=
  sinhala_mappings.foldl (fun acc kv => pyReplace acc (pyLower kv.1) kv.2) s

/-- Translation of `ProfileBuilderAgent._preprocess_input`
(`app/agents/profile_builder.py` lines 128-142): lowercase + strip, the
phrase-substitution loop, whitespace collapsing, bullet conversion. -/
def preprocess_input (raw_input : String) : String :=
  bulletSub (collapseWs (applyMappings (pyStrip (pyLower raw_input))))

example : preprocess_input "fb" = "Facebook" := by decide
example : preprocess_input (preprocess_input "fb") = "facebook" := by decide
example : preprocess_input "PHOTOS nane!" = "lack of content!" := by decide

/-! ## Business-type classification -/

/-- Translation of `ProfileBuilderAgent.business_types`
(`app/agents/profile_builder.py` lines 40-47), in dictionary insertion
order.  Note that the keyword `"IT support"` is stored with uppercase
letters in the source. -/
def business_types : List (String × List String) := [
  ("food_beverage", ["bakery", "restaurant", "cafe", "catering", "food truck", "hotel"]),
  ("retail", ["clothing", "electronics", "jewelry", "books", "cosmetics", "pharmacy"]),
  ("services", ["salon", "repair", "cleaning", "consulting", "tutoring", "fitness"]),
  ("healthcare", ["clinic", "dental", "physiotherapy", "veterinary"]),
  ("education", ["school", "training center", "language classes", "driving school"]),
  ("technology", ["software", "web development", "IT support", "digital marketing"])]

/-- Nested loop of `ProfileBuilderAgent._classify_business_type`: for each
category (in table order), for each keyword (in list order), return the
title-cased keyword as soon as it occurs in the lowercased input or in
the given business-type string. -/
def findBizType (table : List (String × List String)) (input_lower business_type : String) :
    Option String :=
  match table with
  | [] => none
  | (_, kws) :: rest =>
    match kws.find? (fun k => substrS k input_lower || substrS k business_type) with
    | some k => some (pyTitle k)
    | none => findBizType rest input_lower business_type

/-- Translation of `ProfileBuilderAgent._classify_business_type`
(`app/agents/profile_builder.py` lines 290-303): first keyword match over
the table wins; with no match the given business type is returned
title-cased, or `none` when it is empty (Python truthiness). -/
def classify_business_type (business_type input_text : String) : Option String :=
  match findBizType business_types (pyLower input_text) business_type with
  | some t => some t
  | none => if business_type = "" then none else some (pyTitle business_type)

example : classify_business_type "" "I run a small bakery" = some "Bakery" := by decide
example : classify_business_type "" "We provide IT support" = none := by decide
example : classify_business_type "general business" "hello" = some "General Business" := by decide

/-! ## Language detection -/

/-- Test for a code point in the Sinhala Unicode block, the character
class of the regex `[඀-෿]`. -/
def isSinhalaChar (c : Char) : Bool := 0xD80 ≤ c.toNat && c.toNat ≤ 0xDFF

/-- Translation of `ProfileBuilderAgent._detect_language`
(`app/agents/profile_builder.py` lines 387-395). -/
def detect_language (text : String) : String :=
  if text.data.any isSinhalaChar then "Mixed Sinhala-English" else "English"

example : detect_language "hello" = "English" := by decide
example : detect_language "කඩේ promo" = "Mixed Sinhala-English" := by decide

/-! ## JSON values and a model of `json.loads`

The response parser calls the CPython `json` module.  `JVal` and the
fuel-indexed recursive-descent parser below model `json.loads` in strict
mode: literals, numbers (kept as their lexeme), strings with the standard
escapes, arrays and objects (members in source order).  A `\uXXXX` escape
naming a lone surrogate is mapped to U+FFFD since Lean characters are
scalar values; no input in this development contains one. -/

inductive JVal where
  | jnull : JVal
  | jbool : Bool → JVal
  | jnum : String → JVal
  | jstr : String → JVal
  | jarr : List JVal → JVal
  | jobj : List (String × JVal) → JVal

/-- JSON insignificant whitespace (as accepted by the CPython decoder). -/
def jskip (cs : List Char) : List Char :=
  cs.dropWhile (fun c => c = ' ' || c = '\t' || c = '\n' || c = '\r')

/-- Value of a hexadecimal digit (digits, then lowercase, then uppercase
letters, by code point). -/
def hexDigitVal (c : Char) : Option Nat :=
  let n := c.toNat
  if 48 ≤ n && n ≤ 57 then some (n - 48)
  else if 97 ≤ n && n ≤ 102 then some (n - 87)
  else if 65 ≤ n && n ≤ 70 then some (n - 55)
  else none

/-- JSON string body parser (opening quote already consumed): returns the
decoded characters and the remainder after the closing quote.  Raw
control characters below U+0020 are rejected (strict mode). -/
def jstringGo : List Char → Option (List Char × List Char)
  | [] => none
  | c :: t =>
    if c = '"' then some ([], t)
    else if c = '\\' then
      match t with
      | [] => none
      | e :: t2 =>
        if e = '"' then (jstringGo t2).map (fun p => ('"' :: p.1, p.2))
        else if e = '\\' then (jstringGo t2).map (fun p => ('\\' :: p.1, p.2))
        else if e = '/' then (jstringGo t2).map (fun p => ('/' :: p.1, p.2))
        else if e = 'b' then (jstringGo t2).map (fun p => ('\x08' :: p.1, p.2))
        else if e = 'f' then (jstringGo t2).map (fun p => ('\x0c' :: p.1, p.2))
        else if e = 'n' then (jstringGo t2).map (fun p => ('\n' :: p.1, p.2))
        else if e = 'r' then (jstringGo t2).map (fun p => ('\r' :: p.1, p.2))
        else if e = 't' then (jstringGo t2).map (fun p => ('\t' :: p.1, p.2))
        else if e = 'u' then
          match t2 with
          | h1 :: h2 :: h3 :: h4 :: t3 =>
            match hexDigitVal h1, hexDigitVal h2, hexDigitVal h3, hexDigitVal h4 with
            | some a, some b, some c2, some d =>
              let n := ((a * 16 + b) * 16 + c2) * 16 + d
              (jstringGo t3).map (fun p =>
                ((if h : n < 0xD800 ∨ 0xE000 ≤ n ∧ n < 0x110000 then
                    Char.ofNatAux n (by rcases h with h | h <;> omega)
                  else '�') :: p.1, p.2))
            | _, _, _, _ => none
          | _ => none
        else none
    else if c.toNat < 0x20 then none
    else (jstringGo t).map (fun p => (c :: p.1, p.2))

/-- Lexer for the JSON number grammar
`-?(0|[1-9][0-9]*)(\.[0-9]+)?([eE][+-]?[0-9]+)?` (greedy, a fractional or
exponent part is only taken when well formed, as the CPython regex
does). -/
def jnumber? (cs : List Char) : Option (List Char × List Char) :=
  let sign : List Char × List Char :=
    match cs with
    | '-' :: t => (['-'], t)
    | _ => ([], cs)
  match sign.2 with
  | [] => none
  | c :: t =>
    if c = '0' then some (sign.1 ++ ['0'], t)
    else if c.isDigit then
      let ds := t.takeWhile Char.isDigit
      some (sign.1 ++ c :: ds, t.drop ds.length)
    else none

/-- Extension of a number lexeme by a fractional part if present. -/
def jnumFrac (lexeme rest : List Char) : List Char × List Char :=
  match rest with
  | '.' :: r2 =>
    let ds := r2.takeWhile Char.isDigit
    if ds = [] then (lexeme, rest) else (lexeme ++ '.' :: ds, r2.drop ds.length)
  | _ => (lexeme, rest)

/-- Extension of a number lexeme by an exponent part if present. -/
def jnumExp (lexeme rest : List Char) : List Char × List Char :=
  match rest with
  | e :: r2 =>
    if e = 'e' || e = 'E' then
      let signed : List Char × List Char :=
        match r2 with
        | s :: r3 => if s = '+' || s = '-' then ([e, s], r3) else ([e], r2)
        | [] => ([e], r2)
      let ds := signed.2.takeWhile Char.isDigit
      if ds = [] then (lexeme, rest)
      else (lexeme ++ signed.1 ++ ds, signed.2.drop ds.length)
    else (lexeme, rest)
  | _ => (lexeme, rest)

/-- Full JSON number lexer. -/
def jnumFull (cs : List Char) : Option (List Char × List Char) :=
  match jnumber? cs with
  | none => none
  | some (lex, rest) =>
    let f := jnumFrac lex rest
    let g := jnumExp f.1 f.2
    some g

mutual

/-- Fuel-indexed JSON value parser (the value starts at the head of the
input, whitespace already skipped). -/
def jparseVal : Nat → List Char → Option (JVal × List Char)
  | 0, _ => none
  | fuel + 1, cs =>
    match cs with
    | [] => none
    | c :: t =>
      if c = 'n' then
        if ['u', 'l', 'l'].isPrefixOf t then some (.jnull, t.drop 3) else none
      else if c = 't' then
        if ['r', 'u', 'e'].isPrefixOf t then some (.jbool true, t.drop 3) else none
      else if c = 'f' then
        if ['a', 'l', 's', 'e'].isPrefixOf t then some (.jbool false, t.drop 4) else none
      else if c = '"' then
        (jstringGo t).map (fun p => (.jstr (String.mk p.1), p.2))
      else if c = '\x7b' then
        match jskip t with
        | '\x7d' :: t2 => some (.jobj [], t2)
        | t1 => (jparseMembers fuel t1).map (fun p => (.jobj p.1, p.2))
      else if c = '[' then
        match jskip t with
        | ']' :: t2 => some (.jarr [], t2)
        | t1 => (jparseItems fuel t1).map (fun p => (.jarr p.1, p.2))
      else
        (jnumFull (c :: t)).map (fun p => (.jnum (String.mk p.1), p.2))

/-- Fuel-indexed parser for object members (at the first key). -/
def jparseMembers : Nat → List Char → Option (List (String × JVal) × List Char)
  | 0, _ => none
  | fuel + 1, cs =>
    match cs with
    | '"' :: t =>
      match jstringGo t with
      | none => none
      | some (key, r1) =>
        match jskip r1 with
        | ':' :: r2 =>
          match jparseVal fuel (jskip r2) with
          | none => none
          | some (v, r3) =>
            match jskip r3 with
            | ',' :: r4 =>
              match jparseMembers fuel (jskip r4) with
              | none => none
              | some (ms, r5) => some ((String.mk key, v) :: ms, r5)
            | '\x7d' :: r4 => some ([(String.mk key, v)], r4)
            | _ => none
        | _ => none
    | _ => none

/-- Fuel-indexed parser for array items (at the first item). -/
def jparseItems : Nat → List Char → Option (List JVal × List Char)
  | 0, _ => none
  | fuel + 1, cs =>
    match jparseVal fuel cs with
    | none => none
    | some (v, r1) =>
      match jskip r1 with
      | ',' :: r2 =>
        match jparseItems fuel (jskip r2) with
        | none => none
        | some (vs, r3) => some (v :: vs, r3)
      | ']' :: r2 => some ([v], r2)
      | _ => none

end

/-- Model of `json.loads`: the whole string must be one JSON value, up to
surrounding whitespace.  The fuel bounds the recursion depth; every
nested call consumes input, so `2 * length + 4` can never be exhausted
first. -/
def json_loads (s : String) : Option JVal :=
  match jparseVal (2 * s.length + 4) (jskip s.data) with
  | some (v, rest) => if jskip rest = [] then some v else none
  | none => none

example : json_loads "\x7b\"a\":1\x7d" = some (.jobj [("a", .jnum "1")]) := rfl
example : json_loads " null " = some .jnull := rfl
example : json_loads "[1, \"two\", \x7b\x7d]" =
    some (.jarr [.jnum "1", .jstr "two", .jobj []]) := rfl
example : json_loads "not json at all" = none := rfl
example : json_loads "\x7b\"a\":1" = none := rfl

/-! ## Response parser (`ProfileBuilderAgent._parse_llm_response`) -/

/-- Strategy 1 of `_parse_llm_response`: `json.loads(response.strip())`. -/
def strat1 (s : String) : Option JVal := json_loads (pyStrip s)

/-- Matcher for the strategy-2 regex
`\{[^{}]*(?:\{[^{}]*\}[^{}]*)*\}` at a fixed start position.  Since
every branch point of that pattern is decided by the next brace, greedy
matching is equivalent to this two-level scanner: a second opening brace
inside a nested object aborts the match (the pattern supports only one
nesting level), and the match ends at the first brace that closes the
outer object. -/
def rgo : Bool → List Char → List Char → Option (List Char)
  | _, _, [] => none
  | depth2, acc, c :: t =>
    if c = '\x7b' then
      if depth2 then none else rgo true (c :: acc) t
    else if c = '\x7d' then
      if depth2 then rgo false (c :: acc) t else some (c :: acc).reverse
    else rgo depth2 (c :: acc) t

/-- Attempt of the strategy-2 regex at the head of the input. -/
def regexMatchAt : List Char → Option (List Char)
  | [] => none
  | c :: t => if c = '\x7b' then rgo false [c] t else none

/-- Model of `re.search` for the strategy-2 regex: first start position
(left to right) at which the pattern matches wins. -/
def regexSearchJson : List Char → Option (List Char)
  | [] => none
  | c :: t =>
    match regexMatchAt (c :: t) with
    | some m => some m
    | none => regexSearchJson t

/-- Strategy 2 of `_parse_llm_response`: regex-extract an object-shaped
substring, then `json.loads` it. -/
def strat2 (s : String) : Option JVal :=
  (regexSearchJson s.data).bind (fun m => json_loads (String.mk m))

/-- Scan of `_parse_llm_response` for the first opening brace
(`response.find('{')`); `none` models `start_idx == -1`. -/
def dropToBrace : List Char → Option (List Char)
  | [] => none
  | c :: t => if c = '\x7b' then some (c :: t) else dropToBrace t

/-- Brace-depth scan of strategy 3: starting at an opening brace, count
up on `{` and down on `}` and cut after the brace where the count
returns to zero.  When the braces never balance, the loop leaves
`end_idx == start_idx` in the source, i.e. the extracted substring is
empty. -/
def braceTakeGo (count : Nat) (acc : List Char) : List Char → List Char
  | [] => []
  | c :: t =>
    if c = '\x7b' then braceTakeGo (count + 1) (c :: acc) t
    else if c = '\x7d' then
      if count = 1 then (c :: acc).reverse else braceTakeGo (count - 1) (c :: acc) t
    else braceTakeGo count (c :: acc) t

/-- Strategy 3 of `_parse_llm_response`: brace-depth extraction followed
by `json.loads`; skipped entirely when the input has no `{`. -/
def strat3 (s : String) : Option JVal :=
  (dropToBrace s.data).bind (fun rest => json_loads (String.mk (braceTakeGo 0 [] rest)))

/-- Translation of `ProfileBuilderAgent._parse_llm_response`
(`app/agents/profile_builder.py` lines 229-265): the three strategies in
order, first success wins; when all fail, raise carrying the raw
response text. -/
def parse_llm_response (response : String) : Except String JVal :=
  match strat1 response with
  | some v => .ok v
  | none =>
    match strat2 response with
    | some v => .ok v
    | none =>
      match strat3 response with
      | some v => .ok v
      | none => .error ("Could not extract valid JSON from LLM response: " ++ response)

example : parse_llm_response "\x7b\"a\":1\x7d" = .ok (.jobj [("a", .jnum "1")]) := rfl
example : parse_llm_response "Some text \x7b\"a\":1\x7d more text" =
    .ok (.jobj [("a", .jnum "1")]) := rfl
example : parse_llm_response "\x7b\"a\":\x7b\"b\":1\x7d\x7d" =
    .ok (.jobj [("a", .jobj [("b", .jnum "1")])]) := rfl
example : parse_llm_response "not json at all" =
    .error "Could not extract valid JSON from LLM response: not json at all" := rfl
example : strat2 "x \x7b\"a\":\x7b\"b\":\x7b\"c\":1\x7d\x7d\x7d y" =
    some (.jobj [("b", .jobj [("c", .jnum "1")])]) := rfl

/-! ## The business-profile record

The pipeline passes a nested Python dict around; the record below has one
field per key the pipeline reads or writes (`business_identity.*`,
`target_audience.demographics`, `goals.primary_goal`, `resources.*`,
`platform_preferences.preferred_platforms`, `strengths`, `challenges`,
`missing_data_assumptions`).  `none` models an absent key or `None`;
`missing_data_assumptions` is the assumption dict in insertion order. -/

structure Profile where
  business_name : Option String := none
  business_type : Option String := none
  industry : Option String := none
  business_stage : Option String := none
  location : Option String := none
  demographics : Option String := none
  primary_goal : Option String := none
  monthly_budget : Option String := none
  team_or_solo : Option String := none
  content_capacity : Option String := none
  preferred_platforms : List String := []
  strengths : List String := []
  challenges : List String := []
  missing_data_assumptions : List (String × String) := []
deriving DecidableEq, Repr

/-- Python truthiness of an optional string (`None` and `""` are falsy). -/
def truthyS (o : Option String) : Bool :=
  match o with
  | some s => s ≠ ""
  | none => false

/-- Dictionary assignment `d[k] = v` on an insertion-ordered association
list: overwrite in place when the key exists, append otherwise. -/
def dictSet (d : List (String × String)) (k v : String) : List (String × String) :=
  match d with
  | [] => [(k, v)]
  | (k0, v0) :: t => if k0 = k then (k, v) :: t else (k0, v0) :: dictSet t k v

/-! ## Budget normalization (`ProfileBuilderAgent._normalize_budget`) -/

/-- Maximal runs of characters matching the regex class `[\d,]`: model of
`re.findall(r'[\d,]+', budget)` (the accumulator holds the current run
reversed). -/
def numTokensGo (cur : List Char) : List Char → List (List Char)
  | [] => if cur.isEmpty then [] else [cur.reverse]
  | c :: t =>
    if c.isDigit || c = ',' then numTokensGo (c :: cur) t
    else if cur.isEmpty then numTokensGo [] t
    else cur.reverse :: numTokensGo [] t

/-- Numeric value of a digit string. -/
def natDigitsVal (l : List Char) : Nat :=
  l.foldl (fun acc c => acc * 10 + (c.toNat - '0'.toNat)) 0

/-- Translation of `ProfileBuilderAgent._normalize_budget`
(`app/agents/profile_builder.py` lines 341-355), for a non-empty budget
string (the truthiness test on the dict entry is in `applyBudget`).
When the first `[\d,]+` token is reduced to a digit string, the source
evaluates the f-string `f"LKR {amount:,}"` in which `amount` is a `str`;
CPython rejects the thousands-separator format option for strings
(`ValueError: Cannot specify ',' with 's'.`), so that branch raises.
The `k`-suffix branch first runs `int(float(amount) * 1000)`, which
itself raises when the token contains only commas. -/
def normalize_budget_str (budget : String) : Except String String :=
  if budget ≠ "" ∧ ¬ (substrS "LKR" (pyUpper budget) = true) then
    match numTokensGo [] budget.data with
    | [] => .ok budget
    | tok :: _ =>
      let amount := tok.filter (fun c => c ≠ ',')
      if substrS "k" (pyLower budget) then
        if amount.isEmpty then .error "could not convert string to float"
        else
          -- amount is str(int(float(amount) * 1000)), all digits, non-empty
          .error "ValueError: Cannot specify the thousands separator with type s"
      else
        if ¬ amount.isEmpty ∧ amount.all Char.isDigit then
          .error "ValueError: Cannot specify the thousands separator with type s"
        else .ok budget
  else .ok budget

example : normalize_budget_str "25k" =
    .error "ValueError: Cannot specify the thousands separator with type s" := rfl
example : normalize_budget_str "LKR 30,000" = .ok "LKR 30,000" := rfl
example : normalize_budget_str "no numbers here" = .ok "no numbers here" := rfl

/-- Dict-level wrapper of `_normalize_budget`: read
`resources.get('monthly_budget', '')`; a falsy value short-circuits the
guard and nothing is written back. -/
def applyBudget (p : Profile) : Except String Profile :=
  let budget := p.monthly_budget.getD ""
  if budget = "" then .ok p
  else (normalize_budget_str budget).map (fun b => { p with monthly_budget := some b })

/-! ## Audience and platform enhancement -/

/-- Translation of `ProfileBuilderAgent._enhance_target_audience`
(`app/agents/profile_builder.py` lines 305-321). -/
def enhance_target_audience (p : Profile) : Profile :=
  let demographics := p.demographics.getD ""
  if demographics ≠ "" ∧ ¬ (substrS "specific" (pyLower demographics) = true) then
    let bt := pyLower (p.business_type.getD "")
    if substrS "bakery" bt || substrS "restaurant" bt then
      if ¬ (substrS "age" demographics = true) then
        let d2 := demographics ++ " (Ages 18-45, working professionals and families)"
        { p with demographics := some d2 }
      else p
    else if substrS "salon" bt || substrS "beauty" bt then
      if ¬ (substrS "women" (pyLower demographics) = true) then
        { p with demographics := some (demographics ++ " (Primarily women 20-50)") }
      else p
    else p
  else p

/-- Translation of `ProfileBuilderAgent._enhance_platform_preferences`
(`app/agents/profile_builder.py` lines 323-339). -/
def enhance_platform_preferences (p : Profile) : Profile :=
  let bt := pyLower (p.business_type.getD "")
  if p.preferred_platforms.isEmpty then
    if ["restaurant", "bakery", "food"].any (fun w => substrS w bt) then
      { p with preferred_platforms := ["Facebook", "Instagram", "WhatsApp"] }
    else if ["salon", "beauty", "fashion"].any (fun w => substrS w bt) then
      { p with preferred_platforms := ["Instagram", "Facebook", "TikTok"] }
    else if ["tech", "service", "consulting"].any (fun w => substrS w bt) then
      { p with preferred_platforms := ["LinkedIn", "Facebook", "WhatsApp"] }
    else
      { p with preferred_platforms := ["Facebook", "Instagram"] }
  else p

/-- Business-type reclassification step of
`ProfileBuilderAgent._enhance_profile` (lines 273-277): the classifier
runs on the lowercased current type and the original normalized input,
and its result overwrites the type when truthy. -/
def enhance_business_type (p : Profile) (original_input : String) : Profile :=
  let bt := pyLower (p.business_type.getD "")
  match classify_business_type bt original_input with
  | some t => if t ≠ "" then { p with business_type := some t } else p
  | none => p

/-- Translation of `ProfileBuilderAgent._enhance_profile`
(`app/agents/profile_builder.py` lines 267-288): reclassification,
audience enrichment, platform enrichment, then budget normalization
(which can raise). -/
def enhance_profile (p : Profile) (original_input : String) : Except String Profile :=
  applyBudget (enhance_platform_preferences (enhance_target_audience
    (enhance_business_type p original_input)))

/-! ## Gap filler (`ProfileBuilderAgent._fill_missing_data`) -/

/-- Assumption note recorded for a defaulted business stage. -/
def stageNote : String := "Assumed \"Growing\" as most SMEs are in growth phase"

/-- Assumption note recorded for a defaulted team structure. -/
def teamNote : String := "Assumed small team structure typical for SMEs"

/-- Assumption note recorded for a defaulted content capacity. -/
def capacityNote : String := "Assumed limited capacity typical for SMEs"

/-- Assumption note recorded for defaulted strengths. -/
def strengthsNote : String := "Added typical F&B business strengths"

/-- Translation of `ProfileBuilderAgent._fill_missing_data`
(`app/agents/profile_builder.py` lines 357-385): four if-absent rules,
each setting its default and recording one assumption under a fixed
key. -/
def fill_missing_data (p : Profile) : Profile :=
  let a1 := dictSet p.missing_data_assumptions "business_stage" stageNote
  let p1 :=
    if truthyS p.business_stage then p
    else { p with business_stage := some "Growing", missing_data_assumptions := a1 }
  let a2 := dictSet p1.missing_data_assumptions "team_structure" teamNote
  let p2 :=
    if truthyS p1.team_or_solo then p1
    else { p1 with team_or_solo := some "Solo or small team", missing_data_assumptions := a2 }
  let a3 := dictSet p2.missing_data_assumptions "content_capacity" capacityNote
  let p3 :=
    if truthyS p2.content_capacity then p2
    else { p2 with content_capacity := some "Limited - needs simple solutions", missing_data_assumptions := a3 }
  if p3.strengths.isEmpty then
    let bt := pyLower (p3.business_type.getD "")
    let a4 := dictSet p3.missing_data_assumptions "strengths" strengthsNote
    if substrS "restaurant" bt || substrS "bakery" bt then
      { p3 with strengths := ["Quality products", "Local customer base"], missing_data_assumptions := a4 }
    else p3
  else p3

/-! ## LLM gateway (`LLMClient.generate_completion`, `app/utils/llm.py`)

The backend call `_call_openai_api` is modelled as a function from the
attempt number to either the response content or an error message. -/

/-- Retry loop body of `LLMClient.generate_completion` (lines 85-104):
`attempt` is the loop counter, `remaining` the number of further
attempts allowed after this one; the final attempt re-raises wrapped in
the `after N attempts` message. -/
def genGo (backend : Nat → Except String String) (attempt remaining : Nat) :
    Except String String :=
  match backend attempt with
  | .ok content => .ok (pyStrip content)
  | .error e =>
    match remaining with
    | 0 => .error ("LLM API call failed after 3 attempts: " ++ e)
    | r + 1 => genGo backend (attempt + 1) r

/-- Translation of `LLMClient.generate_completion` (`app/utils/llm.py`
lines 43-104) for the configured `self.max_retries = 3` (lines 39-41):
up to three attempts, each failure before the last swallowed and
retried after a delay. -/
def generate_completion (backend : Nat → Except String String) : Except String String :=
  genGo backend 0 2

/-- Stub backend whose first attempt times out and whose later attempts
succeed. -/
def stubRecoveringBackend : Nat → Except String String := fun n =>
  if n = 0 then .error "Request timed out" else .ok "response"

/-- Stub backend that fails on every attempt with a distinct message. -/
def stubFailingBackend : Nat → Except String String := fun n =>
  .error ("boom " ++ toString n)

example : generate_completion stubRecoveringBackend = .ok "response" := rfl
example : generate_completion stubFailingBackend =
    .error "LLM API call failed after 3 attempts: boom 2" := rfl

/-! ## LLM extraction stage (`ProfileBuilderAgent._extract_profile_data`) -/

/-- Lookup in a parsed JSON object. -/
def jlookup (ms : List (String × JVal)) (k : String) : Option JVal :=
  match ms with
  | [] => none
  | (k0, v) :: t => if k0 = k then some v else jlookup t k

/-- Object members of a JSON value, if it is an object. -/
def jObj? : JVal → Option (List (String × JVal))
  | .jobj ms => some ms
  | _ => none

/-- String content of a JSON value, if it is a string. -/
def jStr? : JVal → Option String
  | .jstr s => some s
  | _ => none

/-- String field of a parsed JSON object. -/
def jGetStr (ms : List (String × JVal)) (k : String) : Option String :=
  (jlookup ms k).bind jStr?

/-- List-of-strings field of a parsed JSON object (dict `.get` with an
empty default; non-string items are dropped, the pipeline only ever
reads string items). -/
def jGetStrList (ms : List (String × JVal)) (k : String) : List String :=
  match jlookup ms k with
  | some (.jarr vs) => vs.filterMap jStr?
  | _ => []

/-- Projection of a parsed LLM JSON object onto the profile keys the
pipeline reads (`business_identity.*`, `target_audience.demographics`,
`goals.primary_goal`, `resources.*`,
`platform_preferences.preferred_platforms`, `strengths`,
`challenges`). -/
def profileOfJson (j : JVal) : Profile :=
  let top := (jObj? j).getD []
  let bi := ((jlookup top "business_identity").bind jObj?).getD []
  let ta := ((jlookup top "target_audience").bind jObj?).getD []
  let go := ((jlookup top "goals").bind jObj?).getD []
  let rs := ((jlookup top "resources").bind jObj?).getD []
  let pp := ((jlookup top "platform_preferences").bind jObj?).getD []
  { business_name := jGetStr bi "business_name"
    business_type := jGetStr bi "business_type"
    industry := jGetStr bi "industry"
    business_stage := jGetStr bi "business_stage"
    location := jGetStr bi "location"
    demographics := jGetStr ta "demographics"
    primary_goal := jGetStr go "primary_goal"
    monthly_budget := jGetStr rs "monthly_budget"
    team_or_solo := jGetStr rs "team_or_solo"
    content_capacity := jGetStr rs "content_capacity"
    preferred_platforms := jGetStrList pp "preferred_platforms"
    strengths := jGetStrList top "strengths"
    challenges := jGetStrList top "challenges"
    missing_data_assumptions := [] }

/-- Fallback skeleton built by the `except` clause of
`_extract_profile_data` (`app/agents/profile_builder.py` lines 169-178):
`business_identity` with name `Unknown Business`, type
`General Business`, industry `Unknown`, and nothing else. -/
def fallback_profile : Profile :=
  { business_name := some "Unknown Business"
    business_type := some "General Business"
    industry := some "Unknown" }

/-- Translation of `ProfileBuilderAgent._extract_profile_data`
(`app/agents/profile_builder.py` lines 144-178).  `llmResult` is the
outcome of the awaited gateway call (`.error` when it raises).  Both a
gateway error and a parser error are caught by the `except` clause,
which returns the fallback skeleton instead of propagating. -/
def extract_profile_data (llmResult : Except String String) : Profile :=
  match llmResult with
  | .error _ => fallback_profile
  | .ok response =>
    match parse_llm_response response with
    | .ok j => profileOfJson j
    | .error _ => fallback_profile

/-! ## Pipeline (`ProfileBuilderAgent.build_profile`) -/

/-- Modelled from the spec: the Schema Validator
(`BusinessProfile(**complete_profile)` at step 5 of `build_profile`).
The class `BusinessProfile` imported from `app.utils.validators` is
absent from the source tree, so this stage is modelled from spec §4.8:
absent fields are filled with type-appropriate defaults (which `Profile`
already carries) and an error is raised only when a field cannot be
coerced to its declared type, which cannot happen for a well-typed
`Profile`; hence the model is total. -/
def validate_profile (p : Profile) : Profile := p

/-- Translation of `ProfileBuilderAgent._get_processing_notes`
(`app/agents/profile_builder.py` lines 397-413). -/
def get_processing_notes (original_input : String) (final : Profile) : List String :=
  (if original_input.length < 50 then ["Input was brief - made several assumptions"] else [])
    ++ (if detect_language original_input = "Mixed Sinhala-English" then
          ["Processed mixed language input"] else [])
    ++ (if ¬ final.missing_data_assumptions.isEmpty then
          ["Made " ++ toString final.missing_data_assumptions.length
            ++ " intelligent assumptions"] else [])

/-- Final result of `build_profile`: the validated profile plus the
`profile_metadata` fields computed by the source (the wall-clock
`created_at` timestamp is outside the embedding). -/
structure FinalProfile where
  profile : Profile
  agent_version : String
  input_language : String
  processing_notes : List String
deriving DecidableEq, Repr

/-- Steps 3-6 of `ProfileBuilderAgent.build_profile`
(`app/agents/profile_builder.py` lines 102-122): enhancement,
gap-filling, validation, metadata — the pipeline continuation applied to
whatever the extraction stage produced.  An exception anywhere is
wrapped by the outer `except` clause (line 126). -/
def pipeline_from_extraction (p : Profile) (normalized raw_input : String) :
    Except String FinalProfile :=
  match enhance_profile p normalized with
  | .error e => .error ("Failed to build business profile: " ++ e)
  | .ok enhanced =>
    .ok { profile := validate_profile (fill_missing_data enhanced)
          agent_version := "1.0"
          input_language := detect_language raw_input
          processing_notes :=
            get_processing_notes raw_input (validate_profile (fill_missing_data enhanced)) }

/-- Translation of `ProfileBuilderAgent.build_profile`
(`app/agents/profile_builder.py` lines 83-126), with the gateway call
outcome passed in as `llmResult`: preprocessing (step 1), LLM extraction
(step 2), then the continuation steps 3-6. -/
def build_profile (llmResult : Except String String) (raw_input : String) :
    Except String FinalProfile :=
  pipeline_from_extraction (extract_profile_data llmResult) (preprocess_input raw_input)
    raw_input

example : (build_profile (.error "Timeout") "hello").isOk = true := rfl

/-! ## Schema-validation stage and completeness score

`build_profile` step 5 runs `BusinessProfile(**complete_profile)` with
`BusinessProfile` imported from `app.utils.validators`; the list below
enumerates the module-level names actually defined in
`app/utils/validators.py`, in source order. -/

/-- Top-level names defined by `app/utils/validators.py`. -/
def validatorsModuleNames : List String := [
  "CustomerSegment", "CampaignObjective", "CommunicationChannel", "ContentType",
  "CustomerDemographics", "CustomerBehavioral", "CustomerPsychographics",
  "ContactInformation", "ProfileCreateRequest", "StrategyRequest",
  "CustomerProfile", "MarketingStrategy", "ProfileResponse", "StrategyResponse",
  "ErrorResponse", "PaginationParams", "ListResponse",
  "validate_customer_segment", "validate_communication_channels",
  "validate_campaign_objectives"]

/-- Count of populated required scalar fields of the spec §4.8 list:
business type, location, primary goal, demographics, budget. -/
def requiredScalarCount (p : Profile) : Nat :=
  ([p.business_type, p.location, p.primary_goal, p.demographics,
    p.monthly_budget].filter truthyS).length

/-- Count of populated required list fields of the spec §4.8 list:
strengths, challenges, platforms. -/
def requiredListCount (p : Profile) : Nat :=
  ([p.strengths, p.challenges, p.preferred_platforms].filter
    (fun l => ¬ l.isEmpty)).length

/-- Modelled from the spec: the completeness score of the Schema
Validator (spec §4.8), absent from the source tree (the
`BusinessProfile` class it should live on is not defined in
`app/utils/validators.py`): (non-empty required scalar fields +
non-empty required list fields) / 8, all eight fields with equal
weight. -/
def completeness_score (p : Profile) : ℚ :=
  (requiredScalarCount p + requiredListCount p : ℚ) / 8

/-! ## Analyze-only endpoint (`app/api/profile.py::analyze_input`)

The endpoint builds its insights dict by calling seven methods on a
`ProfileExtractor` instance.  The list below enumerates the attributes
the class `ProfileExtractor` in `app/tools/profile_extraction.py`
actually defines (instance attributes set in `__init__`, then the
methods, in source order). -/

/-- Attributes defined on `ProfileExtractor`. -/
def profileExtractorAttrs : List String := [
  "demographic_fields", "behavioral_fields", "psychographic_fields",
  "extract_profile_data", "_extract_demographics", "_extract_behavioral_data",
  "_extract_psychographics", "_extract_contact_info", "_extract_preferences",
  "_extract_interaction_history", "_clean_demographic_value",
  "_calculate_age_from_birth_date", "_process_purchase_history",
  "_analyze_survey_responses", "_is_valid_email", "_clean_phone_number",
  "_identify_data_sources", "_calculate_data_quality", "_validate_extracted_data"]

/-- Methods the `analyze_input` endpoint looks up on the extractor, in
evaluation order of the insights dict literal. -/
def analyzeRequestedAttrs : List String := [
  "extract_business_type", "extract_location", "extract_platforms",
  "extract_budget", "extract_challenges", "extract_strengths",
  "normalize_sinhala_terms"]

/-- Python attribute resolution on the extractor instance: a missing name
raises `AttributeError`. -/
def getattrExtractor (name : String) : Except String String :=
  if profileExtractorAttrs.contains name then .ok name
  else .error ("AttributeError: ProfileExtractor object has no attribute " ++ name)

/-- Attribute-resolution part of the `try` block of `analyze_input`
(`app/api/profile.py` lines 192-214): each requested method is resolved
in order; the first missing one raises. -/
def resolveAnalyzeAttrs : Except String (List String) :=
  analyzeRequestedAttrs.foldl
    (fun acc n => acc.bind (fun l => (getattrExtractor n).map (fun m => l ++ [m])))
    (.ok [])

/-- Translation of `analyze_input` (`app/api/profile.py` lines 186-220),
restricted to its observable success flag and error field: the `try`
block evaluates the insights dict, whose first entry already raises
`AttributeError` (so the success branch carries no insight data — it is
unreachable, as proved below); the `except` clause returns
`success = False` with the exception text. -/
def analyze_input (_text : String) : Bool × Option String :=
  match resolveAnalyzeAttrs with
  | .ok _ => (true, none)
  | .error e => (false, some e)

example : analyze_input "I run a small bakery in Galle" =
    (false, some "AttributeError: ProfileExtractor object has no attribute extract_business_type") := rfl
example : validatorsModuleNames.contains "BusinessProfile" = false := by decide

/-! ## Support lemmas -/

/-- ASCII lowercasing fixes characters outside the uppercase range. -/
theorem toLower_fix (c : Char) (h : (c.toNat < 65 || 90 < c.toNat) = true) :
    c.toLower = c := by
  rw [Bool.or_eq_true, decide_eq_true_iff, decide_eq_true_iff] at h
  have hn : ¬ (c.toNat ≥ 65 ∧ c.toNat ≤ 90) := by omega
  simp [Char.toLower, hn]

/-- Mapping `Char.toLower` over characters outside the uppercase range is
the identity. -/
theorem mapToLower_fix (l : List Char)
    (h : ∀ c ∈ l, (c.toNat < 65 || 90 < c.toNat) = true) :
    l.map Char.toLower = l := by
  induction l with
  | nil => rfl
  | cons c t ih =>
    rw [List.map_cons, toLower_fix c (h c (List.mem_cons_self c t)),
      ih (fun x hx => h x (List.mem_cons_of_mem c hx))]

/-- Lowercasing fixes a string with no ASCII uppercase character. -/
theorem pyLower_fix (s : String)
    (h : s.data.all (fun c => c.toNat < 65 || 90 < c.toNat) = true) :
    pyLower s = s := by
  rw [List.all_eq_true] at h
  unfold pyLower
  rw [mapToLower_fix s.data h]

/-- Replacing a pattern that does not occur anywhere leaves the string
unchanged (for any amount of fuel). -/
theorem replaceFuel_fix (k v : List Char) :
    ∀ (s : List Char) (n : Nat), substrAux k s = false → replaceFuel k v n s = s := by
  intro s
  induction s with
  | nil => intro n _; cases n <;> rfl
  | cons c t ih =>
    intro n h
    rw [substrAux, Bool.or_eq_false_iff] at h
    cases n with
    | zero => rfl
    | succ m =>
      rw [replaceFuel, if_neg]
      · rw [ih m h.2]
      · intro hc
        rw [hc.2] at h
        exact absurd h.1 (by simp)

/-- Folded replacement over keys none of which occur in `s` is the
identity. -/
theorem foldReplace_fix (L : List (String × String)) (s : String)
    (h : ∀ kv ∈ L, substrS (pyLower kv.1) s = false) :
    L.foldl (fun acc kv => pyReplace acc (pyLower kv.1) kv.2) s = s := by
  induction L with
  | nil => rfl
  | cons kv rest ih =>
    rw [List.foldl_cons]
    have h1 : substrAux (pyLower kv.1).data s.data = false :=
      h kv (List.mem_cons_self kv rest)
    have hrep : pyReplace s (pyLower kv.1) kv.2 = s := by
      unfold pyReplace replaceGo
      rw [replaceFuel_fix _ _ _ _ h1]
    rw [hrep]
    exact ih (fun x hx => h x (List.mem_cons_of_mem kv hx))

/-- A mapping pass over keys none of which occur in `s` is the
identity. -/
theorem applyMappings_fix (s : String)
    (h : sinhala_mappings.all (fun kv => !(substrS (pyLower kv.1) s)) = true) :
    applyMappings s = s := by
  rw [List.all_eq_true] at h
  exact foldReplace_fix sinhala_mappings s
    (fun kv hkv => by simpa using h kv hkv)

/-- Bullet conversion fixes a character list with no character of the
bullet class. -/
theorem bulletGo_fix (l : List Char)
    (h : ∀ c ∈ l, isBulletChar c = false) :
    bulletGo false l = l := by
  induction l with
  | nil => rfl
  | cons c t ih =>
    rw [bulletGo]
    simp [h c (List.mem_cons_self c t),
      ih (fun x hx => h x (List.mem_cons_of_mem c hx))]

/-- Bullet conversion fixes a string with no character of the bullet
class. -/
theorem bulletSub_fix (s : String)
    (h : s.data.all (fun c => !(isBulletChar c)) = true) :
    bulletSub s = s := by
  rw [List.all_eq_true] at h
  unfold bulletSub
  rw [bulletGo_fix s.data (fun c hc => by simpa using h c hc)]

/-- Dictionary assignment makes the assigned key map to the assigned
value. -/
theorem lookup_dictSet_self (d : List (String × String)) (k v : String) :
    List.lookup k (dictSet d k v) = some v := by
  induction d with
  | nil => simp [dictSet, List.lookup]
  | cons kv t ih =>
    obtain ⟨k0, v0⟩ := kv
    by_cases h : k0 = k
    · simp [dictSet, h, List.lookup]
    · have hbeq : (k == k0) = false := by
        simp [Ne.symm h]
      simp [dictSet, h, List.lookup, hbeq, ih]

/-- Dictionary assignment leaves other keys unchanged. -/
theorem lookup_dictSet_ne (d : List (String × String)) (k k' v : String)
    (h : k' ≠ k) : List.lookup k' (dictSet d k v) = List.lookup k' d := by
  have hb : (k' == k) = false := by simp [h]
  induction d with
  | nil => simp [dictSet, List.lookup, hb]
  | cons kv t ih =>
    obtain ⟨k0, v0⟩ := kv
    by_cases h0 : k0 = k
    · subst h0
      simp [dictSet, List.lookup, hb, ih]
    · simp [dictSet, h0, List.lookup, ih]

/-- Food-and-beverage test of the strengths rule of the gap filler (the
profile business type contains `restaurant` or `bakery` after
lowercasing). -/
def fnbType (p : Profile) : Bool :=
  substrS "restaurant" (pyLower (p.business_type.getD ""))
    || substrS "bakery" (pyLower (p.business_type.getD ""))

/-- C6: the gap filler never overwrites a non-empty value — for each of
business stage, team structure, content capacity and strengths, an
already-truthy field is left unchanged and no assumption entry is
recorded for it; each rule that fires sets its documented default and
records exactly its note under its stable key (`business_stage`,
`team_structure`, `content_capacity`, `strengths`); the strengths rule
fires only for food-and-beverage business types; all other profile
fields are untouched. -/
theorem fill_missing_data_spec (p : Profile) :
    ((fill_missing_data p).business_stage =
      if truthyS p.business_stage then p.business_stage else some "Growing")
    ∧ (List.lookup "business_stage" (fill_missing_data p).missing_data_assumptions =
      if truthyS p.business_stage then
        List.lookup "business_stage" p.missing_data_assumptions
      else some stageNote)
    ∧ ((fill_missing_data p).team_or_solo =
      if truthyS p.team_or_solo then p.team_or_solo else some "Solo or small team")
    ∧ (List.lookup "team_structure" (fill_missing_data p).missing_data_assumptions =
      if truthyS p.team_or_solo then
        List.lookup "team_structure" p.missing_data_assumptions
      else some teamNote)
    ∧ ((fill_missing_data p).content_capacity =
      if truthyS p.content_capacity then p.content_capacity
      else some "Limited - needs simple solutions")
    ∧ (List.lookup "content_capacity" (fill_missing_data p).missing_data_assumptions =
      if truthyS p.content_capacity then
        List.lookup "content_capacity" p.missing_data_assumptions
      else some capacityNote)
    ∧ ((fill_missing_data p).strengths =
      if p.strengths.isEmpty && fnbType p then ["Quality products", "Local customer base"]
      else p.strengths)
    ∧ (List.lookup "strengths" (fill_missing_data p).missing_data_assumptions =
      if p.strengths.isEmpty && fnbType p then some strengthsNote
      else List.lookup "strengths" p.missing_data_assumptions)
    ∧ (fill_missing_data p).business_type = p.business_type
    ∧ (fill_missing_data p).monthly_budget = p.monthly_budget
    ∧ (fill_missing_data p).demographics = p.demographics := by
  by_cases h1 : truthyS p.business_stage <;>
    by_cases h2 : truthyS p.team_or_solo <;>
      by_cases h3 : truthyS p.content_capacity <;>
        by_cases h4 : p.strengths.isEmpty <;>
          by_cases h5 : fnbType p <;>
            simp_all [fill_missing_data, fnbType, lookup_dictSet_self, lookup_dictSet_ne]

/-- C6 witness: a profile with `business_stage = "Established"` and
non-empty strengths keeps both and gains no assumption entries for
them. -/
theorem fill_missing_data_spec_witness :
    (fill_missing_data { business_stage := some "Established", strengths := ["Fresh bread"] }).business_stage = some "Established"
    ∧ List.lookup "business_stage" (fill_missing_data { business_stage := some "Established", strengths := ["Fresh bread"] }).missing_data_assumptions = none
    ∧ (fill_missing_data { business_stage := some "Established", strengths := ["Fresh bread"] }).strengths = ["Fresh bread"] := by
  have h := fill_missing_data_spec
    { business_stage := some "Established", strengths := ["Fresh bread"] }
  refine ⟨?_, ?_, ?_⟩
  · rw [h.1]; decide
  · rw [h.2.1]; decide
  · rw [h.2.2.2.2.2.2.1]; decide

/-- Concatenation of the keyword lists of the business-type table, in
table order. -/
def flatBizKeywords : List String := (business_types.map Prod.snd).flatten

/-- Evaluating the nested table loop of `_classify_business_type` is the
same as a first-match search over the flattened keyword list. -/
theorem findBizType_flatten (table : List (String × List String)) (il bt : String) :
    findBizType table il bt =
      (((table.map Prod.snd).flatten).find? (fun k => substrS k il || substrS k bt)).map
        pyTitle := by
  induction table with
  | nil => rfl
  | cons cat rest ih =>
    rw [findBizType, List.map_cons, List.flatten_cons, List.find?_append]
    cases h : cat.2.find? (fun k => substrS k il || substrS k bt) with
    | some k => simp [h]
    | none => simp [h, ih]

/-- C5 (amended): business-type classification scans the category table
in fixed order with first-match-wins and returns the title-cased first
MATCHING KEYWORD (not the category); matching is case-sensitive
containment of the stored keyword in the lowercased input (or in the
given business-type string), so a lowercase keyword matches
case-insensitively with respect to the input while the sole uppercase
keyword `"IT support"` can never match the lowercased input; with no
match the given business type is returned title-cased, or `none` when it
is empty.  The input `"I run a small bakery"` yields `"Bakery"`. -/
theorem classify_keyword_spec (bt input : String) :
    (classify_business_type bt input =
      match flatBizKeywords.find? (fun k => substrS k (pyLower input) || substrS k bt) with
      | some k => some (pyTitle k)
      | none => if bt = "" then none else some (pyTitle bt))
    ∧ classify_business_type "" "I run a small bakery" = some "Bakery" := by
  constructor
  · rw [classify_business_type, flatBizKeywords, findBizType_flatten]
    cases h : (business_types.map Prod.snd).flatten.find?
        (fun k => substrS k (pyLower input) || substrS k bt) with
    | some k => simp
    | none => simp
  · decide

/-- C5 witness: on the concrete input `"I run a small bakery"` the
characterization instantiates to the first-match result `"Bakery"`. -/
theorem classify_keyword_spec_witness :
    classify_business_type "" "I run a small bakery" = some "Bakery" :=
  (classify_keyword_spec "" "I run a small bakery").2

/-- C5 counterexample: the input `"We provide IT support"` contains the
table keyword `"IT support"` (case-insensitively it even contains it
verbatim), yet classification returns `none`; and on
`"I run a small bakery"` the returned value is the title-cased keyword
`"Bakery"`, not the title-cased canonical category `"Food_Beverage"`. -/
theorem classify_category_case_refuted :
    classify_business_type "" "We provide IT support" = none
    ∧ business_types.any (fun cat => cat.2.contains "IT support") = true
    ∧ substrS "it support" (pyLower "We provide IT support") = true
    ∧ classify_business_type "" "I run a small bakery" = some "Bakery"
    ∧ pyTitle "food_beverage" = "Food_Beverage"
    ∧ ("Bakery" : String) ≠ "Food_Beverage" := by
  refine ⟨by decide, by decide, by decide, by decide, by decide, by decide⟩

/-- C9 (amended): the lexical normalizer is not idempotent in general
(see the counterexample), but it is idempotent on every input whose
one-pass output contains no ASCII uppercase letter, is fixed by
stripping and by whitespace collapsing, contains none of the mapping
keys, and contains no character of the bullet class. -/
theorem preprocess_conditional_idempotent (x : String)
    (h1 : (preprocess_input x).data.all (fun c => c.toNat < 65 || 90 < c.toNat) = true)
    (h2 : pyStrip (preprocess_input x) = preprocess_input x)
    (h3 : sinhala_mappings.all
      (fun kv => !(substrS (pyLower kv.1) (preprocess_input x))) = true)
    (h4 : collapseWs (preprocess_input x) = preprocess_input x)
    (h5 : (preprocess_input x).data.all (fun c => !(isBulletChar c)) = true) :
    preprocess_input (preprocess_input x) = preprocess_input x := by
  have hdef : preprocess_input (preprocess_input x) =
      bulletSub (collapseWs (applyMappings (pyStrip (pyLower (preprocess_input x))))) := rfl
  rw [hdef, pyLower_fix _ h1, h2, applyMappings_fix _ h3, h4, bulletSub_fix _ h5]

/-- C9 witness: the conditions hold for the input
`"hello world from galle"` and the normalizer is idempotent there. -/
theorem preprocess_conditional_idempotent_witness :
    (preprocess_input "hello world from galle").data.all
      (fun c => c.toNat < 65 || 90 < c.toNat) = true
    ∧ preprocess_input (preprocess_input "hello world from galle") =
      preprocess_input "hello world from galle" :=
  ⟨by decide, preprocess_conditional_idempotent "hello world from galle"
    (by decide) (by decide) (by decide) (by decide) (by decide)⟩

/-- C9 counterexample: on the input `"fb"` one pass yields `"Facebook"`
(the substitution value contains uppercase letters) while a second pass
lowercases it to `"facebook"`, so running the normalizer twice differs
from running it once. -/
theorem preprocess_not_idempotent :
    preprocess_input "fb" = "Facebook"
    ∧ preprocess_input (preprocess_input "fb") = "facebook"
    ∧ preprocess_input (preprocess_input "fb") ≠ preprocess_input "fb" := by
  refine ⟨by decide, by decide, by decide⟩

/-- C1 (amended): when the LLM stage fails — the gateway call raises, or
the parser exhausts its strategies — `_extract_profile_data` catches the
exception and returns the fallback skeleton, and `build_profile`
continues the pipeline (enhancement, gap-filling, validation, metadata)
on that skeleton instead of surfacing an extraction-stage-tagged
failure. -/
theorem extract_fallback_continues :
    (∀ e : String, extract_profile_data (.error e) = fallback_profile)
    ∧ (∀ resp : String, (parse_llm_response resp).isOk = false →
        extract_profile_data (.ok resp) = fallback_profile)
    ∧ (∀ e raw : String, build_profile (.error e) raw =
        pipeline_from_extraction fallback_profile (preprocess_input raw) raw) := by
  refine ⟨fun e => rfl, fun resp h => ?_, fun e raw => rfl⟩
  cases hp : parse_llm_response resp with
  | ok v => rw [hp] at h; simp [Except.isOk, Except.toBool] at h
  | error s => simp [extract_profile_data, hp]

/-- C1 witness: the parser fails on `"not json at all"` and the
extraction stage maps that failure to the fallback skeleton. -/
theorem extract_fallback_continues_witness :
    (parse_llm_response "not json at all").isOk = false
    ∧ extract_profile_data (.ok "not json at all") = fallback_profile :=
  ⟨rfl, extract_fallback_continues.2.1 "not json at all" rfl⟩

/-- C1 counterexample: with the gateway raising `Timeout`, the extraction
stage returns the fallback skeleton (no error), and the pipeline runs to
a successful profile derived from the skeleton — no tagged failure is
returned. -/
theorem llm_failure_no_tagged_error :
    extract_profile_data (.error "Timeout") = fallback_profile
    ∧ (build_profile (.error "Timeout") "hello").isOk = true
    ∧ (build_profile (.error "Timeout") "hello").map (fun fp => fp.profile.business_name)
        = .ok (some "Unknown Business")
    ∧ (build_profile (.error "Timeout") "hello").map (fun fp => fp.profile.business_type)
        = .ok (some "General Business") :=
  ⟨by decide, by decide, by decide, by decide⟩

/-- C2: the response parser tries the three strategies in strict-to-loose
order with first success winning; it raises — carrying the original raw
text — exactly when all three fail; and the three sample responses parse
to the expected objects while `"not json at all"` raises. -/
theorem parse_cascade_spec :
    (∀ s v, strat1 s = some v → parse_llm_response s = .ok v)
    ∧ (∀ s v, strat1 s = none → strat2 s = some v → parse_llm_response s = .ok v)
    ∧ (∀ s v, strat1 s = none → strat2 s = none → strat3 s = some v →
        parse_llm_response s = .ok v)
    ∧ (∀ s v, parse_llm_response s = .ok v →
        strat1 s = some v ∨ strat2 s = some v ∨ strat3 s = some v)
    ∧ (∀ s, parse_llm_response s =
          .error ("Could not extract valid JSON from LLM response: " ++ s)
        ↔ strat1 s = none ∧ strat2 s = none ∧ strat3 s = none)
    ∧ parse_llm_response "\x7b\"a\":1\x7d" = .ok (.jobj [("a", .jnum "1")])
    ∧ parse_llm_response "Some text \x7b\"a\":1\x7d more text" =
        .ok (.jobj [("a", .jnum "1")])
    ∧ parse_llm_response "\x7b\"a\":\x7b\"b\":1\x7d\x7d" =
        .ok (.jobj [("a", .jobj [("b", .jnum "1")])])
    ∧ parse_llm_response "not json at all" =
        .error ("Could not extract valid JSON from LLM response: " ++ "not json at all") := by
  refine ⟨?_, ?_, ?_, ?_, ?_, rfl, rfl, rfl, rfl⟩
  · intro s v h
    simp [parse_llm_response, h]
  · intro s v h1 h2
    simp [parse_llm_response, h1, h2]
  · intro s v h1 h2 h3
    simp [parse_llm_response, h1, h2, h3]
  · intro s v h
    cases h1 : strat1 s with
    | some w =>
      simp [parse_llm_response, h1] at h
      exact Or.inl (by rw [h])
    | none =>
      cases h2 : strat2 s with
      | some w =>
        simp [parse_llm_response, h1, h2] at h
        exact Or.inr (Or.inl (by rw [h]))
      | none =>
        cases h3 : strat3 s with
        | some w =>
          simp [parse_llm_response, h1, h2, h3] at h
          exact Or.inr (Or.inr (by rw [h]))
        | none =>
          simp [parse_llm_response, h1, h2, h3] at h
  · intro s
    constructor
    · intro h
      cases h1 : strat1 s with
      | some w => simp [parse_llm_response, h1] at h
      | none =>
        cases h2 : strat2 s with
        | some w => simp [parse_llm_response, h1, h2] at h
        | none =>
          cases h3 : strat3 s with
          | some w => simp [parse_llm_response, h1, h2, h3] at h
          | none => exact ⟨rfl, rfl, rfl⟩
    · rintro ⟨h1, h2, h3⟩
      simp [parse_llm_response, h1, h2, h3]

/-- C2 witness: on a response where strategy 1 fails and strategy 2
succeeds, the cascade returns strategy 2's object. -/
theorem parse_cascade_spec_witness :
    strat1 "x \x7b\"a\":1\x7d" = none
    ∧ strat2 "x \x7b\"a\":1\x7d" = some (.jobj [("a", .jnum "1")])
    ∧ parse_llm_response "x \x7b\"a\":1\x7d" = .ok (.jobj [("a", .jnum "1")]) :=
  ⟨rfl, rfl, parse_cascade_spec.2.1 "x \x7b\"a\":1\x7d" (.jobj [("a", .jnum "1")]) rfl rfl⟩

/-- C3: the budget normalizer raises on `"25k"` (the f-string
`f"LKR {amount:,}"` formats a `str` with the thousands-separator option,
which CPython rejects), the raise propagates out of the pipeline as the
wrapped failure, while a budget already carrying `LKR` and a budget with
no numeric token are left untouched. -/
theorem budget_format_crash :
    normalize_budget_str "25k" =
      .error "ValueError: Cannot specify the thousands separator with type s"
    ∧ applyBudget { monthly_budget := some "25k" } =
      .error "ValueError: Cannot specify the thousands separator with type s"
    ∧ build_profile (.ok "\x7b\"resources\":\x7b\"monthly_budget\":\"25k\"\x7d\x7d")
        "I have a small bakery in Galle" =
      .error ("Failed to build business profile: "
        ++ "ValueError: Cannot specify the thousands separator with type s")
    ∧ normalize_budget_str "LKR 30,000" = .ok "LKR 30,000"
    ∧ normalize_budget_str "no budget numbers" = .ok "no budget numbers" :=
  ⟨rfl, rfl, rfl, rfl, rfl⟩

/-- C4 (amended): `generate_completion` retries internally — with
`max_retries = 3`, it returns the first successful attempt's stripped
content, swallowing up to two earlier failures, and only when all three
attempts fail does it raise, wrapping the last error in the
`after 3 attempts` message. -/
theorem generate_retries_spec (b : Nat → Except String String) :
    (∀ c, b 0 = .ok c → generate_completion b = .ok (pyStrip c))
    ∧ (∀ e c, b 0 = .error e → b 1 = .ok c → generate_completion b = .ok (pyStrip c))
    ∧ (∀ e0 e1 c, b 0 = .error e0 → b 1 = .error e1 → b 2 = .ok c →
        generate_completion b = .ok (pyStrip c))
    ∧ (∀ e0 e1 e2, b 0 = .error e0 → b 1 = .error e1 → b 2 = .error e2 →
        generate_completion b = .error ("LLM API call failed after 3 attempts: " ++ e2)) := by
  refine ⟨fun c h0 => ?_, fun e c h0 h1 => ?_, fun e0 e1 c h0 h1 h2 => ?_,
    fun e0 e1 e2 h0 h1 h2 => ?_⟩
  · simp [generate_completion, genGo, h0]
  · simp [generate_completion, genGo, h0, h1]
  · simp [generate_completion, genGo, h0, h1, h2]
  · simp [generate_completion, genGo, h0, h1, h2]

/-- C4 witness: a backend failing on all three attempts makes
`generate_completion` raise the wrapped message of the last attempt. -/
theorem generate_retries_spec_witness :
    stubFailingBackend 0 = .error "boom 0"
    ∧ generate_completion stubFailingBackend =
      .error ("LLM API call failed after 3 attempts: " ++ "boom 2") :=
  ⟨rfl, (generate_retries_spec stubFailingBackend).2.2.2 "boom 0" "boom 1" "boom 2"
    rfl rfl rfl⟩

/-- C4 counterexample: a backend whose first attempt fails and whose
second succeeds — the failure does NOT propagate after the single
attempt; the call is retried and succeeds. -/
theorem generate_single_attempt_refuted :
    stubRecoveringBackend 0 = .error "Request timed out"
    ∧ generate_completion stubRecoveringBackend = .ok "response" :=
  ⟨rfl, rfl⟩

/-- C7: the schema-validation stage cannot compute the claimed
completeness score — the `BusinessProfile` class it runs is not among
the names defined by `app/utils/validators.py` (the import fails) — and
the score as specified (five scalar + three list required fields, equal
weight) evaluates to `0.875` on a profile with all five scalars and two
of the three lists populated. -/
theorem completeness_score_model :
    validatorsModuleNames.contains "BusinessProfile" = false
    ∧ (∀ p : Profile, requiredScalarCount p = 5 → requiredListCount p = 2 →
        completeness_score p = 0.875) := by
  constructor
  · decide
  · intro p h1 h2
    rw [completeness_score, h1, h2]
    norm_num

/-- C7 witness: a profile with all five required scalar fields and two of
the three required list fields populated scores `0.875`. -/
theorem completeness_score_model_witness :
    completeness_score
      { business_type := some "Bakery"
        location := some "Galle"
        primary_goal := some "increase sales"
        demographics := some "working families"
        monthly_budget := some "LKR 25,000"
        strengths := ["quality"]
        challenges := ["low reach"] } = 0.875 :=
  completeness_score_model.2
    { business_type := some "Bakery"
      location := some "Galle"
      primary_goal := some "increase sales"
      demographics := some "working families"
      monthly_budget := some "LKR 25,000"
      strengths := ["quality"]
      challenges := ["low reach"] } (by decide) (by decide)

/-- C8: the analyze endpoint fails for every input — the first insight it
builds looks up `extract_business_type` on `ProfileExtractor`, which
defines no such attribute, so the `try` block raises `AttributeError`
and the endpoint returns the error shape instead of the insights. -/
theorem analyze_always_fails (t : String) :
    analyze_input t = (false,
      some "AttributeError: ProfileExtractor object has no attribute extract_business_type")
    ∧ profileExtractorAttrs.contains "extract_business_type" = false :=
  ⟨rfl, by decide⟩

/-- C8 witness: the concrete request text from the endpoint docstring
also gets the error shape. -/
theorem analyze_always_fails_witness :
    analyze_input "I run a small bakery in Galle" = (false,
      some "AttributeError: ProfileExtractor object has no attribute extract_business_type") :=
  (analyze_always_fails "I run a small bakery in Galle").1

/-- Shape of a successful continuation run: the metadata language field
of any `.ok` result of `pipeline_from_extraction` is the detected
language of the raw input. -/
theorem pipeline_ok_lang (p : Profile) (normalized raw : String) (fp : FinalProfile)
    (h : pipeline_from_extraction p normalized raw = .ok fp) :
    fp.input_language = detect_language raw := by
  unfold pipeline_from_extraction at h
  revert h
  generalize enhance_profile p normalized = r
  intro h
  cases r with
  | error e => exact Except.noConfusion h
  | ok q => injection h with h2; subst h2; rfl

/-- C10: language detection is total, deterministic and two-valued — it
returns `Mixed Sinhala-English` exactly when some character lies in the
Sinhala block U+0D80–U+0DFF and `English` otherwise — and a successful
pipeline run stores exactly this value as the profile metadata input
language. -/
theorem detect_language_spec :
    (∀ s : String, detect_language s = "Mixed Sinhala-English"
      ∨ detect_language s = "English")
    ∧ (∀ s : String, detect_language s = "Mixed Sinhala-English" ↔
        ∃ c ∈ s.data, 0xD80 ≤ c.toNat ∧ c.toNat ≤ 0xDFF)
    ∧ (∀ (llm : Except String String) (raw : String) (fp : FinalProfile),
        build_profile llm raw = .ok fp → fp.input_language = detect_language raw) := by
  have key : ∀ s : String, detect_language s = "Mixed Sinhala-English" ↔
      s.data.any isSinhalaChar = true := by
    intro s
    unfold detect_language
    by_cases h : s.data.any isSinhalaChar = true <;> simp [h]
  refine ⟨fun s => ?_, fun s => ?_, fun llm raw fp h => ?_⟩
  · by_cases h : s.data.any isSinhalaChar = true <;> simp [detect_language, h]
  · rw [key s, List.any_eq_true]
    simp [isSinhalaChar]
  · rw [build_profile] at h
    exact pipeline_ok_lang _ _ _ _ h

/-- C10 witness: a concrete successful pipeline run (gateway stubbed to
fail, input `"hi"`) stores `detect_language "hi" = "English"` in the
metadata. -/
theorem detect_language_spec_witness :
    ({ profile :=
        { business_name := some "Unknown Business"
          business_type := some "General Business"
          industry := some "Unknown"
          business_stage := some "Growing"
          team_or_solo := some "Solo or small team"
          content_capacity := some "Limited - needs simple solutions"
          preferred_platforms := ["Facebook", "Instagram"]
          missing_data_assumptions :=
            [("business_stage", stageNote), ("team_structure", teamNote),
              ("content_capacity", capacityNote)] }
       agent_version := "1.0"
       input_language := "English"
       processing_notes :=
        ["Input was brief - made several assumptions", "Made 3 intelligent assumptions"]
      } : FinalProfile).input_language = detect_language "hi" :=
  detect_language_spec.2.2 (.error "t") "hi" _ (by decide)
